import Mathlib

/-!
Shallow embedding of the ATEM-esp-idf client library (session engine,
sequence tracker, state mirror, command codec) and proofs about the
specified behaviour.  Machine integers are modelled as `Int` (for the
C `int16_t` values, kept in range by hypotheses where it matters) and
`Nat` (for the unsigned types, reduced modulo `2^w` exactly where the C
code truncates).
-/

namespace Atem

/-- Two-complement `INT16_MIN`, the "never set" marker of `AtemState`. -/
def int16Min : Int := -32768

/-- Embedding of `SequenceCheck` (sequence_check.h): `offset_` and
`last_id_` are `int16_t`, `received_` is `uint32_t`. -/
structure SequenceCheck where
  offset : Int
  lastId : Int
  received : Nat
deriving Repr, DecidableEq

/-- Default-constructed tracker: `offset_{1}, last_id_{0},
received_{UINT32_MAX - 1}`. -/
def SequenceCheck.init : SequenceCheck :=
  { offset := 1, lastId := 0, received := 4294967294 }

/-- Embedding of `SequenceCheck::Add` (sequence_check.h lines 29-51).  `last_id_ = id`;
`offset = (id - offset_) & INT16_MAX` (the `&` of the promoted `int`
difference equals the mathematical residue mod `2^15`); if `offset < 32`
the window is shifted (`received_ <<= offset`, a `uint32_t` shift, hence
the reduction mod `2^32`) and re-anchored; then
`offset = abs(id - offset_)` and bit `offset` of `received_` is tested
and set.  For `offset >= 32` the C expression `1 << offset` is an
over-wide shift; the model uses the mathematical bit index, where the
test is false and the set is dropped by the `uint32_t` truncation; none
of the theorems below evaluates that region. -/
def SequenceCheck.add (s : SequenceCheck) (id : Int) : SequenceCheck × Bool :=
  let s1 : SequenceCheck := { s with lastId := id }
  let offset1 : Nat := ((id - s1.offset).emod 32768).toNat
  let s2 : SequenceCheck :=
    if offset1 < 32 then
      { s1 with received := (s1.received <<< offset1) % 4294967296, offset := id }
    else s1
  let offset2 : Nat := (id - s2.offset).natAbs
  if s2.received.testBit offset2 then (s2, false)
  else ({ s2 with received := (s2.received ||| (1 <<< offset2)) % 4294967296 }, true)

/-- Scan helper of `SequenceCheck::GetMissing`: the loop
`for (i = 31; i != 0; i--)` looking for the first clear bit. -/
def SequenceCheck.missingAux (s : SequenceCheck) : Nat → Int
  | 0 => -1
  | Nat.succ k =>
    if ¬ s.received.testBit (Nat.succ k) then (s.offset - (Nat.succ k : Int)).emod 32768
    else SequenceCheck.missingAux s k

/-- Embedding of `SequenceCheck::GetMissing` (sequence_check.h lines 58-71). -/
def SequenceCheck.getMissing (s : SequenceCheck) : Int :=
  if s.received = 4294967295 then -1
  else s.missingAux 31

/-- Embedding of `SequenceCheck::GetLastId`. -/
def SequenceCheck.getLastId (s : SequenceCheck) : Int := s.lastId

/-- Embedding of `SequenceCheck::IsNewer` (sequence_check.h line 97):
`return this->last_id_ < id;`. -/
def SequenceCheck.isNewer (s : SequenceCheck) (id : Int) : Bool :=
  decide (s.lastId < id)

/-- Embedding of the templated `AtemState<T>` wrapper (atem_state.h):
a value plus the `int16_t` packet id of its last change. -/
structure AtemState (α : Type) where
  lastChangeId : Int
  state : α
deriving Repr, DecidableEq

/-- Default constructor `AtemState(const T &state = T())`:
`last_change_id_(INT16_MIN)`. -/
def AtemState.unset {α : Type} (v : α) : AtemState α :=
  { lastChangeId := int16Min, state := v }

/-- Embedding of `AtemState::IsValid`: `last_change_id_ != INT16_MIN`. -/
def AtemState.isValid {α : Type} (a : AtemState α) : Bool :=
  decide (a.lastChangeId ≠ int16Min)

/-- Embedding of `AtemState::Set` (atem_state.h lines 83-98): rejects the write when
`sequence.IsNewer(last_change_id_)` holds, otherwise stores the value
and stamps it with `sequence.GetLastId()`.  Returns the new cell and the
boolean result of the C function. -/
def AtemState.set {α : Type} (a : AtemState α) (seq : SequenceCheck) (v : α) :
    AtemState α × Bool :=
  if seq.isNewer a.lastChangeId then (a, false)
  else ({ lastChangeId := seq.getLastId, state := v }, true)

/-- Modelled from the spec: the "15-bit wrapping comparison" ordering the
spec attributes to the tracker — `p` is newer than `q` iff the forward
distance `(p - q) mod 2^15` is nonzero and below half the id space. -/
def specWrappingNewer (p q : Int) : Bool :=
  decide (0 < (p - q).emod 32768) && decide ((p - q).emod 32768 < 16384)

end Atem

namespace Atem

/-! ### C5 — `IsNewer` after `Add` -/

/-- C5 counterexample: after `Add(5)` on a fresh tracker the last id is 5,
and 5 is newer than 3 under every wrapping reading of the comparison in the spec, so the claim predicts `IsNewer(3) = true`; the code returns
`last_id_ < 3 = false`. -/
theorem c5_counterexample :
    specWrappingNewer 5 3 = true ∧
    ((SequenceCheck.init.add 5).1.getLastId > 3) ∧
    (SequenceCheck.init.add 5).1.isNewer 3 = false := by
  decide

/-- C5 (amended): for every id `other`, `IsNewer(other)` after `Add(id)`
returns true iff `other` is strictly greater than the last id passed to
`Add`, under the plain signed 16-bit comparison — the direction is the
reverse of the claim and no wrapping takes place. -/
theorem c5_isNewer_after_add (s : SequenceCheck) (id other : Int) :
    (s.add id).1.isNewer other = decide (id < other) := by
  unfold SequenceCheck.add SequenceCheck.isNewer
  dsimp only
  by_cases h1 : (((id - s.offset).emod 32768).toNat < 32) <;>
    simp only [h1, if_true, if_false, reduceIte] <;> split <;> simp

/-! ### C1 — last-writer-wins rule of `AtemState::Set` -/

/-- C1 counterexample: a delta carried with packet id 0 (tracker last id
0, as after the handshake) does **not** overwrite a field whose stored
`last_change_id` is 1: `Set` returns false and the cell keeps value 7,
while the claim says id 0 is treated as always newer. -/
theorem c1_counterexample :
    (AtemState.set { lastChangeId := 1, state := (7 : Nat) } SequenceCheck.init 9)
      = ({ lastChangeId := 1, state := (7 : Nat) }, false) ∧
    SequenceCheck.init.getLastId = 0 := by
  decide

/-- C1 (amended): a delta whose packet id is `p` (the last id of the tracker)
overwrites a field whose stored id is `q` iff `q ≤ p` under the plain
signed 16-bit comparison (no 15-bit wrapping); a never-set field
(`q = INT16_MIN`) is always overwritten because every in-range id is
`≥ INT16_MIN`; packet id 0 receives no special treatment and overwrites
only fields with `q ≤ 0`.  On success the cell holds the new value
stamped with `p`; on rejection it is unchanged. -/
theorem c1_set_last_writer_wins {α : Type} (a : AtemState α)
    (seq : SequenceCheck) (v : α) (hp : int16Min ≤ seq.lastId) :
    ((a.set seq v).2 = true ↔ a.lastChangeId ≤ seq.lastId) ∧
    ((a.set seq v).2 = true →
      (a.set seq v).1 = { lastChangeId := seq.lastId, state := v }) ∧
    ((a.set seq v).2 = false → (a.set seq v).1 = a) ∧
    (a.lastChangeId = int16Min → (a.set seq v).2 = true) := by
  unfold AtemState.set SequenceCheck.isNewer SequenceCheck.getLastId
  by_cases h : seq.lastId < a.lastChangeId
  · simp [h]
    omega
  · simp [h]
    omega

/-- Witness for C1: a concrete instantiation — packet id 3 overwrites a
never-set cell. -/
theorem c1_set_last_writer_wins_witness :
    (AtemState.set (AtemState.unset (0 : Nat))
      { SequenceCheck.init with lastId := 3 } 5).2 = true :=
  (c1_set_last_writer_wins (AtemState.unset (0 : Nat))
      { SequenceCheck.init with lastId := 3 } 5 (by decide)).2.2.2 (by decide)

end Atem

namespace Atem

/-! ### Data model of the state mirror (atem_types.h, atem.h) -/

/-- Struct `InputProperty` (atem_types.h): `char name_long[20]; char name_short[4]`,
modelled as byte lists. -/
structure InputProperty where
  nameLong : List Nat
  nameShort : List Nat
deriving Repr, DecidableEq

/-- Struct `TransitionPosition` (atem_types.h). -/
structure TransitionPosition where
  inTransition : Bool
  position : Nat
deriving Repr, DecidableEq

/-- Struct `TransitionState` (atem_types.h); the style enum is carried as its
`uint8_t` value. -/
structure TransitionState where
  style : Nat
  next : Nat
deriving Repr, DecidableEq

/-- Struct `Topology` (atem_types.h), all fields `uint8_t`. -/
structure Topology where
  me : Nat
  sources : Nat
  dsk : Nat
  aux : Nat
  mixminusOutputs : Nat
  mediaplayers : Nat
  multiviewers : Nat
  rs485 : Nat
  hyperdecks : Nat
  dve : Nat
  stingers : Nat
  supersources : Nat
  talkbackChannels : Nat
  cameraControl : Nat
deriving Repr, DecidableEq

/-- Value-initialised `Topology` (all zero). -/
def Topology.zero : Topology :=
  { me := 0, sources := 0, dsk := 0, aux := 0, mixminusOutputs := 0,
    mediaplayers := 0, multiviewers := 0, rs485 := 0, hyperdecks := 0,
    dve := 0, stingers := 0, supersources := 0, talkbackChannels := 0,
    cameraControl := 0 }

/-- Struct `DveState` (atem_types.h), five `int` fields. -/
structure DveState where
  sizeX : Int
  sizeY : Int
  posX : Int
  posY : Int
  rotationVal : Int
deriving Repr, DecidableEq

/-- Struct `ProtocolVersion` (atem_types.h): `uint16_t major, minor`. -/
structure ProtocolVersion where
  major : Nat
  minor : Nat
deriving Repr, DecidableEq

/-- Value-initialised `ProtocolVersion`. -/
def ProtocolVersion.zero : ProtocolVersion := { major := 0, minor := 0 }

/-- Struct `MediaPlayer` (atem_types.h). -/
structure MediaPlayer where
  still : Nat
  clip : Nat
deriving Repr, DecidableEq

/-- Value-initialised `MediaPlayer`. -/
def MediaPlayer.zero : MediaPlayer := { still := 0, clip := 0 }

/-- Struct `MediaPlayerSource` (atem_types.h). -/
structure MediaPlayerSource where
  type : Nat
  stillIndex : Nat
  clipIndex : Nat
deriving Repr, DecidableEq

/-- Struct `UskState` (atem_types.h); `Source` values are carried as their
`uint16_t` codes, the mask edges are `int16_t`. -/
structure UskState where
  type : Nat
  flyingKeyEnabled : Bool
  fill : Nat
  key : Nat
  maskEnabled : Bool
  top : Int
  bottom : Int
  left : Int
  right : Int
deriving Repr, DecidableEq

/-- Struct `Usk` (atem_types.h): the per-keyer trio of versioned cells. -/
structure Usk where
  state : AtemState UskState
  atKeyFrame : AtemState Nat
  dve : AtemState DveState
deriving Repr, DecidableEq

/-- Struct `DskState` (atem_types.h). -/
structure DskState where
  onAir : Bool
  inTransition : Bool
  isAutoTransitioning : Bool
deriving Repr, DecidableEq

/-- Struct `DskSource` (atem_types.h). -/
structure DskSource where
  fill : Nat
  key : Nat
deriving Repr, DecidableEq

/-- Struct `DskProperties` (atem_types.h). -/
structure DskProperties where
  tie : Bool
deriving Repr, DecidableEq

/-- Struct `Dsk` (atem_types.h). -/
structure Dsk where
  state : AtemState DskState
  source : AtemState DskSource
  properties : AtemState DskProperties
deriving Repr, DecidableEq

/-- Struct `FadeToBlack` (atem_types.h). -/
structure FadeToBlack where
  fullyBlack : Bool
  inTransition : Bool
deriving Repr, DecidableEq

/-- The anonymous `transition` struct inside `MixEffect` (atem_types.h). -/
structure Transition where
  position : AtemState TransitionPosition
  state : AtemState TransitionState
deriving Repr, DecidableEq

/-- Struct `MixEffect` (atem_types.h); `program`, `preview` carry `Source` codes
and `usk_on_air` is the `uint16_t` bitmask. -/
structure MixEffect where
  program : AtemState Nat
  preview : AtemState Nat
  uskOnAir : AtemState Nat
  transition : Transition
  ftb : AtemState FadeToBlack
  keyer : List Usk
deriving Repr, DecidableEq

/-- The state-mirror members of class `Atem` (atem.h lines 405-415):
maps become association lists, vectors become lists, `product_id_` is the
45-byte array. -/
structure Mirror where
  inputProperties : List (Nat × AtemState InputProperty)
  topology : AtemState Topology
  version : AtemState ProtocolVersion
  mediaPlayer : AtemState MediaPlayer
  productId : List Nat
  mixEffect : List MixEffect
  dsk : List Dsk
  auxOut : List (AtemState Nat)
  mediaPlayerSource : List (AtemState MediaPlayerSource)
  mediaPlayerFile : List (Nat × AtemState (List Nat))
  stream : AtemState Nat
deriving Repr, DecidableEq

/-- The mirror contents produced by `Atem::Reconnect_` (atem.cpp lines
756-768): maps and vectors cleared, scalar cells re-assigned to their
default-constructed (never-set) state, `product_id_` zeroed. -/
def Mirror.reset : Mirror :=
  { inputProperties := [],
    topology := AtemState.unset Topology.zero,
    version := AtemState.unset ProtocolVersion.zero,
    mediaPlayer := AtemState.unset MediaPlayer.zero,
    productId := List.replicate 45 0,
    mixEffect := [],
    dsk := [],
    auxOut := [],
    mediaPlayerSource := [],
    mediaPlayerFile := [],
    stream := AtemState.unset 0 }

end Atem

namespace Atem

/-! ### Transport packets and the unacked-send buffer -/

/-- The 12-byte transport header of `AtemPacket` (atem_packet.h) plus the
first payload byte (`data[12]`, used by the HELLO packet).  All fields
hold the raw 16-bit wire values (`flags` the 5-bit field). -/
structure OutPacket where
  flags : Nat
  sessionId : Nat
  length : Nat
  ackId : Nat
  resendId : Nat
  unknown : Nat
  id : Nat
  body0 : Nat
deriving Repr, DecidableEq

/-- The allocating constructor `AtemPacket(flags, session, length)`
(atem_packet.cpp lines 10-22): the length is capped below at 12 and the
header is zeroed. -/
def OutPacket.make (flags sessionId length : Nat) : OutPacket :=
  { flags := flags, sessionId := sessionId,
    length := if length < 12 then 12 else length,
    ackId := 0, resendId := 0, unknown := 0, id := 0, body0 := 0 }

/-- The storage step of `Atem::SendCommands` (atem.cpp lines 705-711):
when the buffer already holds 32 or more packets, `back()` is popped
before the fresh packet is pushed.  The list front is `send_packets_[0]`
(the oldest entry); `push_back` appends at the end. -/
def storeSentPacket (buf : List OutPacket) (p : OutPacket) : List OutPacket :=
  if 32 ≤ buf.length then buf.dropLast ++ [p] else buf ++ [p]

/-- A distinct ACK_REQUEST packet for each id, used for concrete buffers. -/
def cPk (i : Nat) : OutPacket :=
  { flags := 1, sessionId := 0, length := 12, ackId := 0, resendId := 0,
    unknown := 0, id := i, body0 := 0 }

/-- A full buffer of 32 distinct packets, oldest (id 0) first. -/
def cBuf32 : List OutPacket := (List.range 32).map cPk

/-! ### C2 — bound and eviction policy of the unacked-send buffer -/

/-- C2 counterexample: storing a packet into a full buffer of 32 entries
evicts the **newest** entry (id 31, at `back()`), not the oldest (id 0,
which survives at the front), refuting the oldest-first eviction claim. -/
theorem c2_counterexample :
    cBuf32.length = 32 ∧
    cBuf32.head? = some (cPk 0) ∧
    (storeSentPacket cBuf32 (cPk 99)).length = 32 ∧
    cPk 0 ∈ storeSentPacket cBuf32 (cPk 99) ∧
    cPk 31 ∉ storeSentPacket cBuf32 (cPk 99) := by
  decide

/-- C2 (amended): the buffer never grows beyond 32 entries, and when it
is full at the moment `SendCommands` stores a newly sent packet, the
entry evicted is the **most recently stored** one (the `back()` of the
vector): the 31 oldest entries survive in order and the fresh packet is
appended. -/
theorem c2_send_buffer_bound (buf : List OutPacket) (p : OutPacket)
    (h : buf.length ≤ 32) :
    (storeSentPacket buf p).length ≤ 32 ∧
    (buf.length = 32 → storeSentPacket buf p = buf.take 31 ++ [p]) ∧
    (buf.length < 32 → storeSentPacket buf p = buf ++ [p]) := by
  unfold storeSentPacket
  by_cases hfull : 32 ≤ buf.length
  · have h32 : buf.length = 32 := le_antisymm h hfull
    refine ⟨?_, fun _ => ?_, fun hlt => absurd hlt (by omega)⟩
    · simp [hfull, List.length_dropLast, h32]
    · simp only [hfull, if_true]
      have : buf.dropLast = buf.take (buf.length - 1) := by
        simp [List.dropLast_eq_take]
      rw [this, h32]
  · refine ⟨?_, fun he => absurd he (by omega), fun _ => by simp [hfull]⟩
    simp [hfull]
    omega

/-- Witness for C2: a concrete full buffer keeps 32 entries and drops the
back. -/
theorem c2_send_buffer_bound_witness :
    (storeSentPacket cBuf32 (cPk 99)).length ≤ 32 ∧
    storeSentPacket cBuf32 (cPk 99) = cBuf32.take 31 ++ [cPk 99] :=
  ⟨(c2_send_buffer_bound cBuf32 (cPk 99) (by decide)).1,
   (c2_send_buffer_bound cBuf32 (cPk 99) (by decide)).2.1 (by decide)⟩

/-! ### C8 — version-gated layout of the DSK-auto command -/

/-- Embedding of `cmd::DskAuto::PrepairCommand` (atem_command.h lines 175-186) acting
on the 4-byte body (`GetData` points at `data_ + 8`): the keyer byte is
written at body offset 0 when `ver.major <= 2 && ver.minor <= 27`, else
at body offset 1; the body is otherwise untouched. -/
def dskAutoPrepair (keyer : Nat) (ver : ProtocolVersion) (body : Nat → Nat) :
    Nat → Nat :=
  if ver.major ≤ 2 ∧ ver.minor ≤ 27 then
    fun i => if i = 0 then keyer else body i
  else
    fun i => if i = 1 then keyer else body i

/-- Modelled from the spec: lexicographic major.minor order on protocol
versions, the order the claim uses for the 2.27 / 2.28 gate. -/
def specVersionLe (v w : ProtocolVersion) : Bool :=
  decide (v.major < w.major ∨ (v.major = w.major ∧ v.minor ≤ w.minor))

/-- C8 counterexample: version 1.30 is lexicographically at most 2.27, so
the claim puts the keyer byte at body offset 0; the code compares the
components independently (`minor <= 27` fails), writes the keyer (5) at
offset 1 and leaves offset 0 at its previous value 0. -/
theorem c8_counterexample :
    specVersionLe { major := 1, minor := 30 } { major := 2, minor := 27 } = true ∧
    dskAutoPrepair 5 { major := 1, minor := 30 } (fun _ => 0) 0 = 0 ∧
    dskAutoPrepair 5 { major := 1, minor := 30 } (fun _ => 0) 1 = 5 := by
  refine ⟨by decide, ?_, ?_⟩ <;> simp [dskAutoPrepair]

/-- C8 (amended): the keyer byte goes to body offset 0 exactly when
`major ≤ 2` **and** `minor ≤ 27` hold componentwise (not in lexicographic
order — version 1.30 uses offset 1), otherwise to body offset 1; in both
cases every other byte of the serialized command is unchanged. -/
theorem c8_dskAuto_layout (k : Nat) (v : ProtocolVersion) (b : Nat → Nat) :
    (v.major ≤ 2 ∧ v.minor ≤ 27 →
      dskAutoPrepair k v b 0 = k ∧ ∀ i, i ≠ 0 → dskAutoPrepair k v b i = b i) ∧
    (¬(v.major ≤ 2 ∧ v.minor ≤ 27) →
      dskAutoPrepair k v b 1 = k ∧ ∀ i, i ≠ 1 → dskAutoPrepair k v b i = b i) := by
  constructor
  · intro h
    refine ⟨by simp [dskAutoPrepair, h], fun i hi => ?_⟩
    simp [dskAutoPrepair, h, hi]
  · intro h
    refine ⟨by simp [dskAutoPrepair, h], fun i hi => ?_⟩
    simp [dskAutoPrepair, h, hi]

/-- Witness for C8: at version 2.27 the keyer byte (5) lands at offset 0
and offset 3 keeps the previous body byte. -/
theorem c8_dskAuto_layout_witness :
    dskAutoPrepair 5 { major := 2, minor := 27 } (fun _ => 9) 0 = 5 ∧
    dskAutoPrepair 5 { major := 2, minor := 27 } (fun _ => 9) 3 = 9 :=
  ⟨((c8_dskAuto_layout 5 { major := 2, minor := 27 } (fun _ => 9)).1
      ⟨by decide, by decide⟩).1,
   ((c8_dskAuto_layout 5 { major := 2, minor := 27 } (fun _ => 9)).1
      ⟨by decide, by decide⟩).2 3 (by decide)⟩

end Atem

namespace Atem

/-! ### Snapshot queries (atem_state.cpp) -/

/-- Embedding of `Atem::GetAuxOutput` (atem_state.cpp lines 22-28): bound check on the
aux vector, validity check, then the copy-out — the C out-parameter and
boolean return become an `Option`. -/
def Mirror.getAuxOutput (m : Mirror) (channel : Nat) : Option Nat :=
  match m.auxOut[channel]? with
  | none => none
  | some a => if a.isValid then some a.state else none

/-- Embedding of `Atem::GetProgramInput` (atem_state.cpp lines 94-100). -/
def Mirror.getProgramInput (m : Mirror) (me : Nat) : Option Nat :=
  match m.mixEffect[me]? with
  | none => none
  | some mes => if mes.program.isValid then some mes.program.state else none

/-- Embedding of `Atem::GetPreviewInput` (atem_state.cpp lines 86-92). -/
def Mirror.getPreviewInput (m : Mirror) (me : Nat) : Option Nat :=
  match m.mixEffect[me]? with
  | none => none
  | some mes => if mes.preview.isValid then some mes.preview.state else none

/-- Embedding of `Atem::GetDskState` (atem_state.cpp lines 30-36). -/
def Mirror.getDskState (m : Mirror) (keyer : Nat) : Option DskState :=
  match m.dsk[keyer]? with
  | none => none
  | some d => if d.state.isValid then some d.state.state else none

/-- Embedding of `Atem::GetUskState` (atem_state.cpp lines 134-141): bound checks on
the mix-effect vector and its keyer vector, then validity. -/
def Mirror.getUskState (m : Mirror) (me keyer : Nat) : Option UskState :=
  match m.mixEffect[me]? with
  | none => none
  | some mes =>
    match mes.keyer[keyer]? with
    | none => none
    | some u => if u.state.isValid then some u.state.state else none


/-- Embedding of `Atem::GetDskSource` (atem_state.cpp lines 38-44). -/
def Mirror.getDskSource (m : Mirror) (keyer : Nat) : Option DskSource :=
  match m.dsk[keyer]? with
  | none => none
  | some d => if d.source.isValid then some d.source.state else none

/-- Embedding of `Atem::GetDskProperties` (atem_state.cpp lines 46-52). -/
def Mirror.getDskProperties (m : Mirror) (keyer : Nat) : Option DskProperties :=
  match m.dsk[keyer]? with
  | none => none
  | some d => if d.properties.isValid then some d.properties.state else none

/-- Embedding of `Atem::GetFtbState` (atem_state.cpp lines 54-60). -/
def Mirror.getFtbState (m : Mirror) (me : Nat) : Option FadeToBlack :=
  match m.mixEffect[me]? with
  | none => none
  | some mes => if mes.ftb.isValid then some mes.ftb.state else none

/-- Embedding of `Atem::GetStreamState` (atem_state.cpp lines 62-67);
no index, only the validity gate. -/
def Mirror.getStreamState (m : Mirror) : Option Nat :=
  if m.stream.isValid then some m.stream.state else none

/-- Embedding of `Atem::GetMediaPlayer` (atem_state.cpp lines 69-74). -/
def Mirror.getMediaPlayer (m : Mirror) : Option MediaPlayer :=
  if m.mediaPlayer.isValid then some m.mediaPlayer.state else none

/-- Embedding of `Atem::GetMediaPlayerSource` (atem_state.cpp lines
76-84). -/
def Mirror.getMediaPlayerSource (m : Mirror) (mplayer : Nat) :
    Option MediaPlayerSource :=
  match m.mediaPlayerSource[mplayer]? with
  | none => none
  | some s => if s.isValid then some s.state else none

/-- Embedding of `Atem::GetProtocolVersion` (atem_state.cpp lines
102-107). -/
def Mirror.getProtocolVersion (m : Mirror) : Option ProtocolVersion :=
  if m.version.isValid then some m.version.state else none

/-- Embedding of `Atem::GetTopology` (atem_state.cpp lines 109-114). -/
def Mirror.getTopology (m : Mirror) : Option Topology :=
  if m.topology.isValid then some m.topology.state else none

/-- Embedding of `Atem::GetTransitionState` (atem_state.cpp lines
116-122). -/
def Mirror.getTransitionState (m : Mirror) (me : Nat) : Option TransitionState :=
  match m.mixEffect[me]? with
  | none => none
  | some mes =>
    if mes.transition.state.isValid then some mes.transition.state.state else none

/-- Embedding of `Atem::GetTransitionPosition` (atem_state.cpp lines
124-132). -/
def Mirror.getTransitionPosition (m : Mirror) (me : Nat) :
    Option TransitionPosition :=
  match m.mixEffect[me]? with
  | none => none
  | some mes =>
    if mes.transition.position.isValid then some mes.transition.position.state
    else none

/-- Embedding of `Atem::GetUskNumber` (atem_state.cpp lines 143-148):
only the bound on the mix-effect vector is checked; the keyer count is
copied out with **no** validity condition. -/
def Mirror.getUskNumber (m : Mirror) (me : Nat) : Option Nat :=
  match m.mixEffect[me]? with
  | none => none
  | some mes => some mes.keyer.length

/-- Embedding of `Atem::GetUskOnAir` (atem_state.cpp lines 150-158): the
keyer index is bounded by the **constant 15** (the bitmask width), not
by the keyer container, and the copied value is the truth of the masked
bit `Get() & (0x1 << keyer)`, not a stored field value. -/
def Mirror.getUskOnAir (m : Mirror) (me keyer : Nat) : Option Bool :=
  match m.mixEffect[me]? with
  | none => none
  | some mes =>
    if 15 < keyer then none
    else if mes.uskOnAir.isValid then
      some (decide (mes.uskOnAir.state &&& (1 <<< keyer) ≠ 0))
    else none

/-- Embedding of `Atem::GetUskDveState` (atem_state.cpp lines 160-167). -/
def Mirror.getUskDveState (m : Mirror) (me keyer : Nat) : Option DveState :=
  match m.mixEffect[me]? with
  | none => none
  | some mes =>
    match mes.keyer[keyer]? with
    | none => none
    | some u => if u.dve.isValid then some u.dve.state else none


/-! ### C10 — snapshot queries succeed exactly on valid in-range fields -/

/-- C10 (amended): every snapshot query that copies one versioned field
(GetAuxOutput, GetProgramInput, GetPreviewInput, GetDskState,
GetUskState, GetDskSource, GetDskProperties, GetFtbState,
GetStreamState, GetMediaPlayer, GetMediaPlayerSource,
GetProtocolVersion, GetTopology, GetTransitionState,
GetTransitionPosition, GetUskDveState) returns a value (the C function
returns true and writes its out-parameter) iff the requested index is
inside the corresponding topology-sized container and the stored
`last_change_id` differs from `INT16_MIN`, the value returned being the
stored one; on failure nothing is returned (the out-parameter stays
untouched).  Two accessors deviate from that discipline: `GetUskNumber`
succeeds for **every** in-range mix-effect index, with no
`last_change_id` condition, copying the keyer count; and `GetUskOnAir`
bounds the keyer index by the constant 15 rather than by the keyer
container and copies the truth of the masked bit
`Get() & (0x1 << keyer)` of the valid bitmask, not a stored value. -/
theorem c10_snapshot_queries (m : Mirror) (channel me keyer mplayer : Nat) :
    ((m.getAuxOutput channel).isSome ↔
      ∃ a, m.auxOut[channel]? = some a ∧ a.lastChangeId ≠ int16Min) ∧
    (∀ v, m.getAuxOutput channel = some v →
      ∃ a, m.auxOut[channel]? = some a ∧ v = a.state) ∧
    ((m.getProgramInput me).isSome ↔
      ∃ mes, m.mixEffect[me]? = some mes ∧
        mes.program.lastChangeId ≠ int16Min) ∧
    (∀ v, m.getProgramInput me = some v →
      ∃ mes, m.mixEffect[me]? = some mes ∧ v = mes.program.state) ∧
    ((m.getPreviewInput me).isSome ↔
      ∃ mes, m.mixEffect[me]? = some mes ∧
        mes.preview.lastChangeId ≠ int16Min) ∧
    (∀ v, m.getPreviewInput me = some v →
      ∃ mes, m.mixEffect[me]? = some mes ∧ v = mes.preview.state) ∧
    ((m.getDskState keyer).isSome ↔
      ∃ d, m.dsk[keyer]? = some d ∧ d.state.lastChangeId ≠ int16Min) ∧
    (∀ v, m.getDskState keyer = some v →
      ∃ d, m.dsk[keyer]? = some d ∧ v = d.state.state) ∧
    ((m.getUskState me keyer).isSome ↔
      ∃ mes, m.mixEffect[me]? = some mes ∧
        ∃ u, mes.keyer[keyer]? = some u ∧
          u.state.lastChangeId ≠ int16Min) ∧
    (∀ v, m.getUskState me keyer = some v →
      ∃ mes, m.mixEffect[me]? = some mes ∧
        ∃ u, mes.keyer[keyer]? = some u ∧ v = u.state.state) ∧
    ((m.getDskSource keyer).isSome ↔
      ∃ d, m.dsk[keyer]? = some d ∧ d.source.lastChangeId ≠ int16Min) ∧
    (∀ v, m.getDskSource keyer = some v →
      ∃ d, m.dsk[keyer]? = some d ∧ v = d.source.state) ∧
    ((m.getDskProperties keyer).isSome ↔
      ∃ d, m.dsk[keyer]? = some d ∧ d.properties.lastChangeId ≠ int16Min) ∧
    (∀ v, m.getDskProperties keyer = some v →
      ∃ d, m.dsk[keyer]? = some d ∧ v = d.properties.state) ∧
    ((m.getFtbState me).isSome ↔
      ∃ mes, m.mixEffect[me]? = some mes ∧ mes.ftb.lastChangeId ≠ int16Min) ∧
    (∀ v, m.getFtbState me = some v →
      ∃ mes, m.mixEffect[me]? = some mes ∧ v = mes.ftb.state) ∧
    (m.getStreamState.isSome ↔ m.stream.lastChangeId ≠ int16Min) ∧
    (∀ v, m.getStreamState = some v → v = m.stream.state) ∧
    (m.getMediaPlayer.isSome ↔ m.mediaPlayer.lastChangeId ≠ int16Min) ∧
    (∀ v, m.getMediaPlayer = some v → v = m.mediaPlayer.state) ∧
    ((m.getMediaPlayerSource mplayer).isSome ↔
      ∃ sp, m.mediaPlayerSource[mplayer]? = some sp ∧
        sp.lastChangeId ≠ int16Min) ∧
    (∀ v, m.getMediaPlayerSource mplayer = some v →
      ∃ sp, m.mediaPlayerSource[mplayer]? = some sp ∧ v = sp.state) ∧
    (m.getProtocolVersion.isSome ↔ m.version.lastChangeId ≠ int16Min) ∧
    (∀ v, m.getProtocolVersion = some v → v = m.version.state) ∧
    (m.getTopology.isSome ↔ m.topology.lastChangeId ≠ int16Min) ∧
    (∀ v, m.getTopology = some v → v = m.topology.state) ∧
    ((m.getTransitionState me).isSome ↔
      ∃ mes, m.mixEffect[me]? = some mes ∧
        mes.transition.state.lastChangeId ≠ int16Min) ∧
    (∀ v, m.getTransitionState me = some v →
      ∃ mes, m.mixEffect[me]? = some mes ∧ v = mes.transition.state.state) ∧
    ((m.getTransitionPosition me).isSome ↔
      ∃ mes, m.mixEffect[me]? = some mes ∧
        mes.transition.position.lastChangeId ≠ int16Min) ∧
    (∀ v, m.getTransitionPosition me = some v →
      ∃ mes, m.mixEffect[me]? = some mes ∧ v = mes.transition.position.state) ∧
    ((m.getUskDveState me keyer).isSome ↔
      ∃ mes, m.mixEffect[me]? = some mes ∧
        ∃ u, mes.keyer[keyer]? = some u ∧ u.dve.lastChangeId ≠ int16Min) ∧
    (∀ v, m.getUskDveState me keyer = some v →
      ∃ mes, m.mixEffect[me]? = some mes ∧
        ∃ u, mes.keyer[keyer]? = some u ∧ v = u.dve.state) ∧
    ((m.getUskNumber me).isSome ↔ me < m.mixEffect.length) ∧
    (∀ v, m.getUskNumber me = some v →
      ∃ mes, m.mixEffect[me]? = some mes ∧ v = mes.keyer.length) ∧
    ((m.getUskOnAir me keyer).isSome ↔
      ∃ mes, m.mixEffect[me]? = some mes ∧ keyer ≤ 15 ∧
        mes.uskOnAir.lastChangeId ≠ int16Min) ∧
    (∀ v, m.getUskOnAir me keyer = some v →
      ∃ mes, m.mixEffect[me]? = some mes ∧
        v = decide (mes.uskOnAir.state &&& (1 <<< keyer) ≠ 0)) := by
  refine ⟨?_, ?_, ?_, ?_, ?_, ?_, ?_, ?_, ?_, ?_, ?_, ?_, ?_, ?_, ?_, ?_, ?_,
    ?_, ?_, ?_, ?_, ?_, ?_, ?_, ?_, ?_, ?_, ?_, ?_, ?_, ?_, ?_, ?_, ?_, ?_, ?_⟩
  · cases h : m.auxOut[channel]? with
    | none => simp [Mirror.getAuxOutput, h]
    | some a =>
      by_cases hva : a.lastChangeId = int16Min <;>
        simp [Mirror.getAuxOutput, h, AtemState.isValid, hva]
  · intro v hv
    cases h : m.auxOut[channel]? with
    | none => simp [Mirror.getAuxOutput, h] at hv
    | some a =>
      refine ⟨a, rfl, ?_⟩
      by_cases hva : a.lastChangeId = int16Min <;>
        simp [Mirror.getAuxOutput, h, AtemState.isValid, hva] at hv <;>
        simp [hv]
  · cases h : m.mixEffect[me]? with
    | none => simp [Mirror.getProgramInput, h]
    | some mes =>
      by_cases hva : mes.program.lastChangeId = int16Min <;>
        simp [Mirror.getProgramInput, h, AtemState.isValid, hva]
  · intro v hv
    cases h : m.mixEffect[me]? with
    | none => simp [Mirror.getProgramInput, h] at hv
    | some mes =>
      refine ⟨mes, rfl, ?_⟩
      by_cases hva : mes.program.lastChangeId = int16Min <;>
        simp [Mirror.getProgramInput, h, AtemState.isValid, hva] at hv <;>
        simp [hv]
  · cases h : m.mixEffect[me]? with
    | none => simp [Mirror.getPreviewInput, h]
    | some mes =>
      by_cases hva : mes.preview.lastChangeId = int16Min <;>
        simp [Mirror.getPreviewInput, h, AtemState.isValid, hva]
  · intro v hv
    cases h : m.mixEffect[me]? with
    | none => simp [Mirror.getPreviewInput, h] at hv
    | some mes =>
      refine ⟨mes, rfl, ?_⟩
      by_cases hva : mes.preview.lastChangeId = int16Min <;>
        simp [Mirror.getPreviewInput, h, AtemState.isValid, hva] at hv <;>
        simp [hv]
  · cases h : m.dsk[keyer]? with
    | none => simp [Mirror.getDskState, h]
    | some d =>
      by_cases hva : d.state.lastChangeId = int16Min <;>
        simp [Mirror.getDskState, h, AtemState.isValid, hva]
  · intro v hv
    cases h : m.dsk[keyer]? with
    | none => simp [Mirror.getDskState, h] at hv
    | some d =>
      refine ⟨d, rfl, ?_⟩
      by_cases hva : d.state.lastChangeId = int16Min <;>
        simp [Mirror.getDskState, h, AtemState.isValid, hva] at hv <;>
        simp [hv]
  · cases h : m.mixEffect[me]? with
    | none => simp [Mirror.getUskState, h]
    | some mes =>
      cases h2 : mes.keyer[keyer]? with
      | none => simp [Mirror.getUskState, h, h2]
      | some u =>
        by_cases hva : u.state.lastChangeId = int16Min <;>
          simp [Mirror.getUskState, h, h2, AtemState.isValid, hva]
  · intro v hv
    cases h : m.mixEffect[me]? with
    | none => simp [Mirror.getUskState, h] at hv
    | some mes =>
      cases h2 : mes.keyer[keyer]? with
      | none => simp [Mirror.getUskState, h, h2] at hv
      | some u =>
        refine ⟨mes, rfl, u, h2, ?_⟩
        by_cases hva : u.state.lastChangeId = int16Min <;>
          simp [Mirror.getUskState, h, h2, AtemState.isValid, hva] at hv <;>
          simp [hv]
  · cases h : m.dsk[keyer]? with
    | none => simp [Mirror.getDskSource, h]
    | some d =>
      by_cases hva : d.source.lastChangeId = int16Min <;>
        simp [Mirror.getDskSource, h, AtemState.isValid, hva]
  · intro v hv
    cases h : m.dsk[keyer]? with
    | none => simp [Mirror.getDskSource, h] at hv
    | some d =>
      refine ⟨d, rfl, ?_⟩
      by_cases hva : d.source.lastChangeId = int16Min <;>
        simp [Mirror.getDskSource, h, AtemState.isValid, hva] at hv <;>
        simp [hv]
  · cases h : m.dsk[keyer]? with
    | none => simp [Mirror.getDskProperties, h]
    | some d =>
      by_cases hva : d.properties.lastChangeId = int16Min <;>
        simp [Mirror.getDskProperties, h, AtemState.isValid, hva]
  · intro v hv
    cases h : m.dsk[keyer]? with
    | none => simp [Mirror.getDskProperties, h] at hv
    | some d =>
      refine ⟨d, rfl, ?_⟩
      by_cases hva : d.properties.lastChangeId = int16Min <;>
        simp [Mirror.getDskProperties, h, AtemState.isValid, hva] at hv <;>
        simp [hv]
  · cases h : m.mixEffect[me]? with
    | none => simp [Mirror.getFtbState, h]
    | some mes =>
      by_cases hva : mes.ftb.lastChangeId = int16Min <;>
        simp [Mirror.getFtbState, h, AtemState.isValid, hva]
  · intro v hv
    cases h : m.mixEffect[me]? with
    | none => simp [Mirror.getFtbState, h] at hv
    | some mes =>
      refine ⟨mes, rfl, ?_⟩
      by_cases hva : mes.ftb.lastChangeId = int16Min <;>
        simp [Mirror.getFtbState, h, AtemState.isValid, hva] at hv <;>
        simp [hv]
  · by_cases hva : m.stream.lastChangeId = int16Min <;>
      simp [Mirror.getStreamState, AtemState.isValid, hva]
  · intro v hv
    by_cases hva : m.stream.lastChangeId = int16Min <;>
      simp [Mirror.getStreamState, AtemState.isValid, hva] at hv <;>
      simp [hv]
  · by_cases hva : m.mediaPlayer.lastChangeId = int16Min <;>
      simp [Mirror.getMediaPlayer, AtemState.isValid, hva]
  · intro v hv
    by_cases hva : m.mediaPlayer.lastChangeId = int16Min <;>
      simp [Mirror.getMediaPlayer, AtemState.isValid, hva] at hv <;>
      simp [hv]
  · cases h : m.mediaPlayerSource[mplayer]? with
    | none => simp [Mirror.getMediaPlayerSource, h]
    | some sp =>
      by_cases hva : sp.lastChangeId = int16Min <;>
        simp [Mirror.getMediaPlayerSource, h, AtemState.isValid, hva]
  · intro v hv
    cases h : m.mediaPlayerSource[mplayer]? with
    | none => simp [Mirror.getMediaPlayerSource, h] at hv
    | some sp =>
      refine ⟨sp, rfl, ?_⟩
      by_cases hva : sp.lastChangeId = int16Min <;>
        simp [Mirror.getMediaPlayerSource, h, AtemState.isValid, hva] at hv <;>
        simp [hv]
  · by_cases hva : m.version.lastChangeId = int16Min <;>
      simp [Mirror.getProtocolVersion, AtemState.isValid, hva]
  · intro v hv
    by_cases hva : m.version.lastChangeId = int16Min <;>
      simp [Mirror.getProtocolVersion, AtemState.isValid, hva] at hv <;>
      simp [hv]
  · by_cases hva : m.topology.lastChangeId = int16Min <;>
      simp [Mirror.getTopology, AtemState.isValid, hva]
  · intro v hv
    by_cases hva : m.topology.lastChangeId = int16Min <;>
      simp [Mirror.getTopology, AtemState.isValid, hva] at hv <;>
      simp [hv]
  · cases h : m.mixEffect[me]? with
    | none => simp [Mirror.getTransitionState, h]
    | some mes =>
      by_cases hva : mes.transition.state.lastChangeId = int16Min <;>
        simp [Mirror.getTransitionState, h, AtemState.isValid, hva]
  · intro v hv
    cases h : m.mixEffect[me]? with
    | none => simp [Mirror.getTransitionState, h] at hv
    | some mes =>
      refine ⟨mes, rfl, ?_⟩
      by_cases hva : mes.transition.state.lastChangeId = int16Min <;>
        simp [Mirror.getTransitionState, h, AtemState.isValid, hva] at hv <;>
        simp [hv]
  · cases h : m.mixEffect[me]? with
    | none => simp [Mirror.getTransitionPosition, h]
    | some mes =>
      by_cases hva : mes.transition.position.lastChangeId = int16Min <;>
        simp [Mirror.getTransitionPosition, h, AtemState.isValid, hva]
  · intro v hv
    cases h : m.mixEffect[me]? with
    | none => simp [Mirror.getTransitionPosition, h] at hv
    | some mes =>
      refine ⟨mes, rfl, ?_⟩
      by_cases hva : mes.transition.position.lastChangeId = int16Min <;>
        simp [Mirror.getTransitionPosition, h, AtemState.isValid, hva] at hv <;>
        simp [hv]
  · cases h : m.mixEffect[me]? with
    | none => simp [Mirror.getUskDveState, h]
    | some mes =>
      cases h2 : mes.keyer[keyer]? with
      | none => simp [Mirror.getUskDveState, h, h2]
      | some u =>
        by_cases hva : u.dve.lastChangeId = int16Min <;>
          simp [Mirror.getUskDveState, h, h2, AtemState.isValid, hva]
  · intro v hv
    cases h : m.mixEffect[me]? with
    | none => simp [Mirror.getUskDveState, h] at hv
    | some mes =>
      cases h2 : mes.keyer[keyer]? with
      | none => simp [Mirror.getUskDveState, h, h2] at hv
      | some u =>
        refine ⟨mes, rfl, u, h2, ?_⟩
        by_cases hva : u.dve.lastChangeId = int16Min <;>
          simp [Mirror.getUskDveState, h, h2, AtemState.isValid, hva] at hv <;>
          simp [hv]
  · cases h : m.mixEffect[me]? with
    | none =>
      have hlen : m.mixEffect.length ≤ me := List.getElem?_eq_none_iff.mp h
      simp [Mirror.getUskNumber, h]
      omega
    | some mes =>
      have hlen : me < m.mixEffect.length := (List.getElem?_eq_some.mp h).1
      simp [Mirror.getUskNumber, h, hlen]
  · intro v hv
    cases h : m.mixEffect[me]? with
    | none => simp [Mirror.getUskNumber, h] at hv
    | some mes =>
      refine ⟨mes, rfl, ?_⟩
      simp [Mirror.getUskNumber, h] at hv
      simp [hv]
  · cases h : m.mixEffect[me]? with
    | none => simp [Mirror.getUskOnAir, h]
    | some mes =>
      by_cases hk : 15 < keyer
      · have hk' : ¬ keyer ≤ 15 := by omega
        simp [Mirror.getUskOnAir, h, hk, hk']
      · have hk' : keyer ≤ 15 := by omega
        by_cases hva : mes.uskOnAir.lastChangeId = int16Min <;>
          simp [Mirror.getUskOnAir, h, hk, hk', AtemState.isValid, hva]
  · intro v hv
    cases h : m.mixEffect[me]? with
    | none => simp [Mirror.getUskOnAir, h] at hv
    | some mes =>
      refine ⟨mes, rfl, ?_⟩
      by_cases hk : 15 < keyer
      · simp [Mirror.getUskOnAir, h, hk] at hv
      · by_cases hva : mes.uskOnAir.lastChangeId = int16Min <;>
          simp [Mirror.getUskOnAir, h, hk, AtemState.isValid, hva] at hv <;>
          simp [hv]

end Atem

namespace Atem

/-! ### The KeOn command handler (atem.cpp lines 534-551) -/

/-- The effective bitmask a reader observes: the stored value when the
cell is valid, otherwise all-zero (`usk_on_air.IsValid() ? Get() : 0`). -/
def effOnAir (c : AtemState Nat) : Nat :=
  if c.isValid then c.state else 0

/-- The `KeOn` case of `Atem::task_` (atem.cpp lines 534-551): bounds
checks (`mix_effect_.size() <= me`, `keyer > 15`), then
`state = IsValid() ? Get() : 0`, `state &= ~(0x1 << keyer)` and
`state |= on_air << keyer` in `uint16_t` arithmetic, and finally
`usk_on_air.Set(sequence, state)`.  The complement of the bit inside the
16-bit register is `0xFFFF ^^^ (1 <<< keyer)`, and the `|=` assignment
truncates mod `2^16`. -/
def Mirror.applyKeOn (m : Mirror) (seq : SequenceCheck) (me keyer onAir : Nat) :
    Mirror :=
  match m.mixEffect[me]? with
  | none => m
  | some mes =>
    if 15 < keyer then m
    else
      let state0 : Nat := if mes.uskOnAir.isValid then mes.uskOnAir.state else 0
      let s1 : Nat := state0 &&& (65535 ^^^ (1 <<< keyer))
      let s2 : Nat := (s1 ||| (onAir <<< keyer)) % 65536
      { m with
        mixEffect := m.mixEffect.set me
          { mes with uskOnAir := (mes.uskOnAir.set seq s2).1 } }

end Atem

namespace Atem

/-! ### C9 — KeOn touches exactly one bit of one bitmask -/

/-- Helper: bits other than `keyer` of the value computed by the KeOn
handler agree with the previous effective bitmask. -/
theorem keOn_bit_frame (state0 keyer onAir b : Nat) (hk : keyer ≤ 15)
    (ha : onAir ≤ 1) (hr : state0 < 65536) (hb : b ≠ keyer) :
    (((state0 &&& (65535 ^^^ (1 <<< keyer))) ||| (onAir <<< keyer)) % 65536).testBit b
      = state0.testBit b := by
  have h1 : (1 : Nat) <<< keyer = 2 ^ keyer := Nat.one_shiftLeft keyer
  have hlt1 : state0 &&& (65535 ^^^ (1 <<< keyer)) < 65536 :=
    lt_of_le_of_lt Nat.and_le_left hr
  have hlt2 : onAir <<< keyer < 65536 := by
    rw [Nat.shiftLeft_eq]
    calc onAir * 2 ^ keyer ≤ 1 * 2 ^ 15 := by
          exact Nat.mul_le_mul ha (Nat.pow_le_pow_right (by norm_num) hk)
      _ < 65536 := by norm_num
  have hor : ((state0 &&& (65535 ^^^ (1 <<< keyer))) ||| (onAir <<< keyer)) < 65536 := by
    have := Nat.or_lt_two_pow (n := 16) (by simpa using hlt1) (by simpa using hlt2)
    simpa using this
  rw [Nat.mod_eq_of_lt hor, Nat.testBit_or, Nat.testBit_and, Nat.testBit_xor]
  have h65535 : (65535 : Nat).testBit b = decide (b < 16) := by
    have : (65535 : Nat) = 2 ^ 16 - 1 := by norm_num
    rw [this, Nat.testBit_two_pow_sub_one]
  have hpow : (2 ^ keyer : Nat).testBit b = false := by
    rw [Nat.testBit_two_pow]
    simpa using fun h => hb h.symm
  have hshift : (onAir <<< keyer).testBit b = false := by
    interval_cases onAir
    · simp
    · simpa [h1] using hpow
  rw [h1, hpow, hshift, h65535]
  by_cases hb16 : b < 16
  · simp [hb16]
  · have : state0.testBit b = false := by
      apply Nat.testBit_lt_two_pow
      calc state0 < 65536 := hr
        _ = 2 ^ 16 := by norm_num
        _ ≤ 2 ^ b := Nat.pow_le_pow_right (by norm_num) (by omega)
    simp [hb16, this]

/-- The bitmask value computed by the KeOn handler before `Set`. -/
def keOnNewMask (mes : MixEffect) (keyer onAir : Nat) : Nat :=
  (((if mes.uskOnAir.isValid then mes.uskOnAir.state else 0)
    &&& (65535 ^^^ (1 <<< keyer))) ||| (onAir <<< keyer)) % 65536

/-- The mix effect after the KeOn handler ran on it. -/
def keOnUpdatedMe (mes : MixEffect) (seq : SequenceCheck) (keyer onAir : Nat) :
    MixEffect :=
  { mes with uskOnAir := (mes.uskOnAir.set seq (keOnNewMask mes keyer onAir)).1 }

/-- C9: an accepted `KeOn` delta (mix-effect index in range, keyer at
most 15, on-air value 0 or 1) can change only bit `keyer` of the
`usk_on_air` bitmask of that mix effect: every other top-level mirror
field, every other mix effect, every other field of the touched mix
effect, and every other bit of the effective bitmask (a never-set mask
counting as all-zero) keeps its previous value. -/
theorem c9_keOn_only_touches_one_bit (m : Mirror) (seq : SequenceCheck)
    (me keyer onAir : Nat) (mes : MixEffect)
    (hme : m.mixEffect[me]? = some mes)
    (hk : keyer ≤ 15) (ha : onAir ≤ 1)
    (hr : mes.uskOnAir.state < 65536)
    (hs : 0 ≤ seq.lastId) :
    (m.applyKeOn seq me keyer onAir).inputProperties = m.inputProperties ∧
    (m.applyKeOn seq me keyer onAir).topology = m.topology ∧
    (m.applyKeOn seq me keyer onAir).version = m.version ∧
    (m.applyKeOn seq me keyer onAir).mediaPlayer = m.mediaPlayer ∧
    (m.applyKeOn seq me keyer onAir).productId = m.productId ∧
    (m.applyKeOn seq me keyer onAir).dsk = m.dsk ∧
    (m.applyKeOn seq me keyer onAir).auxOut = m.auxOut ∧
    (m.applyKeOn seq me keyer onAir).mediaPlayerSource = m.mediaPlayerSource ∧
    (m.applyKeOn seq me keyer onAir).mediaPlayerFile = m.mediaPlayerFile ∧
    (m.applyKeOn seq me keyer onAir).stream = m.stream ∧
    (m.applyKeOn seq me keyer onAir).mixEffect.length = m.mixEffect.length ∧
    (∀ j, j ≠ me →
      (m.applyKeOn seq me keyer onAir).mixEffect[j]? = m.mixEffect[j]?) ∧
    (∃ mes', (m.applyKeOn seq me keyer onAir).mixEffect[me]? = some mes' ∧
      mes'.program = mes.program ∧
      mes'.preview = mes.preview ∧
      mes'.transition = mes.transition ∧
      mes'.ftb = mes.ftb ∧
      mes'.keyer = mes.keyer ∧
      (∀ b, b ≠ keyer →
        (effOnAir mes'.uskOnAir).testBit b = (effOnAir mes.uskOnAir).testBit b)) := by
  have hklt : ¬ (15 < keyer) := by omega
  have hmem : me < m.mixEffect.length := (List.getElem?_eq_some.mp hme).1
  have hm' : m.applyKeOn seq me keyer onAir =
      { m with mixEffect := m.mixEffect.set me (keOnUpdatedMe mes seq keyer onAir) } := by
    unfold Mirror.applyKeOn keOnUpdatedMe keOnNewMask
    rw [hme]
    simp [hklt]
  rw [hm']
  refine ⟨rfl, rfl, rfl, rfl, rfl, rfl, rfl, rfl, rfl, rfl, by simp, ?_, ?_⟩
  · intro j hj
    exact List.getElem?_set_ne (by omega)
  · refine ⟨keOnUpdatedMe mes seq keyer onAir,
      List.getElem?_set_self hmem, rfl, rfl, rfl, rfl, rfl, ?_⟩
    intro b hb
    unfold keOnUpdatedMe AtemState.set
    by_cases hrej : seq.isNewer mes.uskOnAir.lastChangeId
    · simp [hrej]
    · simp only [hrej, Bool.false_eq_true, if_false, reduceIte]
      have hvalid : (AtemState.isValid
          (⟨seq.getLastId, keOnNewMask mes keyer onAir⟩ : AtemState Nat)) = true := by
        simp only [AtemState.isValid, SequenceCheck.getLastId, int16Min,
          decide_eq_true_eq]
        omega
      unfold effOnAir
      rw [hvalid]
      simp only [if_true]
      unfold keOnNewMask
      by_cases hv : mes.uskOnAir.isValid
      · simp only [hv, if_true]
        exact keOn_bit_frame mes.uskOnAir.state keyer onAir b hk ha hr hb
      · simp only [hv, Bool.false_eq_true, if_false, reduceIte]
        have h0 := keOn_bit_frame 0 keyer onAir b hk ha (by norm_num) hb
        simpa using h0

end Atem

namespace Atem

/-! ### Session engine (atem.cpp) -/

/-- Enum `Atem::ConnectionState` (atem.h lines 381-386). -/
inductive ConnState where
  | notConnected
  | connected
  | initializing
  | active
deriving Repr, DecidableEq

/-- The engine state carried across iterations of `Atem::task_`:
the connection members of class `Atem` (atem.h lines 387-415) plus the
task-local `ack_count`. -/
structure Engine where
  connState : ConnState
  sessionId : Nat
  localId : Nat
  remoteId : Nat
  ackCount : Nat
  seq : SequenceCheck
  sendPackets : List OutPacket
  mirror : Mirror
deriving Repr, DecidableEq

/-- The HELLO packet sent by `Atem::Reconnect_` (atem.cpp lines 786-788):
`AtemPacket(0x2, 0x0B06, 20)` with payload byte 12 set to 0x01. -/
def helloPacket : OutPacket :=
  { OutPacket.make 2 0x0B06 20 with body0 := 1 }

/-- Embedding of `Atem::Reconnect_` (atem.cpp lines 744-789): state back to
`kConnected`, ids and session reset, tracker re-initialised, the state
mirror cleared, the unacked-send buffer emptied, and the HELLO packet
sent. -/
def Engine.reconnect (e : Engine) : Engine × OutPacket :=
  ({ e with connState := ConnState.connected, localId := 0, remoteId := 0,
            sessionId := 0x0B06, seq := SequenceCheck.init,
            mirror := Mirror.reset, sendPackets := [] },
   helloPacket)

/-- One receive-timeout iteration of `Atem::task_` (atem.cpp lines
101-127): when `ack_count > 4` the connection is declared dead
(`ack_count = INT_MAX`, `Reconnect_()`); otherwise, when
`Connected()` holds, a keepalive probe `AtemPacket(0x11, session, 12)`
with `SetId(++local_id_)` and `SetAckId(remote_id_)` is sent, and
`ack_count` is incremented. -/
def Engine.timeoutTick (e : Engine) : Engine × List OutPacket :=
  if 4 < e.ackCount then
    let e1 : Engine := { e with ackCount := 2147483647 }
    let r := e1.reconnect
    (r.1, [r.2])
  else
    if e.connState = ConnState.active then
      let nid : Nat := (e.localId + 1) % 65536
      let p : OutPacket :=
        { OutPacket.make 0x11 e.sessionId 12 with id := nid, ackId := e.remoteId }
      ({ e with localId := nid, ackCount := e.ackCount + 1 }, [p])
    else
      ({ e with ackCount := e.ackCount + 1 }, [])

/-- Iterated receive timeouts (consecutive probe intervals with no
inbound packet), collecting everything sent. -/
def Engine.timeoutTicks : Nat → Engine → Engine × List OutPacket
  | 0, e => (e, [])
  | Nat.succ n, e =>
    let r1 := e.timeoutTick
    let r2 := Engine.timeoutTicks n r1.1
    (r2.1, r1.2 ++ r2.2)

/-- The ACK-request handling fragment of `Atem::task_` (atem.cpp lines
234-263): `remote_id_ = packet.GetId()`, the id is fed to the tracker,
an `AtemPacket(0x10, session, 12)` with `SetAckId(remote_id_)` is
prepared, and when `GetMissing()` is nonnegative the packet becomes a
gap request: flags `0x10 | 0x8`, `SetResendId(missing)`, `SetId(0)`,
`SetUnknown(0x100)`.  It is sent when the engine is Active or a gap was
seen.  Returns the updated tracker, the new `remote_id_` and the packet
sent (if any). -/
def handleAckRequest (seq : SequenceCheck) (sessionId inboundId : Nat)
    (active : Bool) : SequenceCheck × Nat × Option OutPacket :=
  let r := seq.add (inboundId : Int)
  let base : OutPacket := { OutPacket.make 0x10 sessionId 12 with ackId := inboundId }
  let missing : Int := r.1.getMissing
  let p : OutPacket :=
    if 0 ≤ missing then
      { base with flags := 0x10 ||| 0x8, resendId := missing.toNat, id := 0,
                  unknown := 0x100 }
    else base
  (r.1, inboundId, if active || decide (0 ≤ missing) then some p else none)

/-- Result of the RESEND-request handler: either a cached packet is
retransmitted or a bare filler is synthesized. -/
inductive ResendAction where
  | resendCached (p : OutPacket)
  | synthFill (p : OutPacket)
deriving Repr, DecidableEq

/-- The RESEND-request fragment of `Atem::task_` (atem.cpp lines
203-231), Active state: the send buffer is scanned (at most 51 entries)
for a packet whose id equals `packet.GetId()` — the **inbound packet
id**, not the requested `resend_id` — and that packet is resent when
found; otherwise a bare `AtemPacket(0x1, session, 12)` with
`SetId(packet.GetResendId())` is sent. -/
def handleResendRequest (sendPackets : List OutPacket) (sessionId : Nat)
    (inboundId inboundResendId : Nat) : ResendAction :=
  match (sendPackets.take 51).find? (fun p => p.id == inboundId) with
  | some p => ResendAction.resendCached p
  | none =>
    ResendAction.synthFill { OutPacket.make 0x1 sessionId 12 with id := inboundResendId }

/-- The body of `Atem::SendCommands` (atem.cpp lines 664-723) reduced to
the length/id/store logic, over the list of lengths of the non-null
commands: `uint16_t length = 12 + Σ GetLength()`; an empty total is
rejected (`ESP_ERR_INVALID_ARG`, no packet); otherwise an
`AtemPacket(0x1, session, length)` with `SetId(++local_id_)` is built,
sent, and stored through the eviction-at-32 step. -/
def Engine.sendCommands (e : Engine) (cmdLens : List Nat) : Engine × Option OutPacket :=
  let length : Nat := (12 + cmdLens.sum) % 65536
  if length = 12 then (e, none)
  else
    let nid : Nat := (e.localId + 1) % 65536
    let p : OutPacket := { OutPacket.make 0x1 e.sessionId length with id := nid }
    ({ e with localId := nid, sendPackets := storeSentPacket e.sendPackets p },
     some p)

end Atem

namespace Atem

/-! ### Concrete fixtures -/

/-- A mix effect whose on-air bitmask is valid (value 5, packet id 2). -/
def c9me : MixEffect :=
  { program := AtemState.unset 0, preview := AtemState.unset 0,
    uskOnAir := { lastChangeId := 2, state := 5 },
    transition :=
      { position := AtemState.unset { inTransition := false, position := 0 },
        state := AtemState.unset { style := 0, next := 0 } },
    ftb := AtemState.unset { fullyBlack := false, inTransition := false },
    keyer := [] }

/-- A mirror holding exactly that mix effect. -/
def c9m : Mirror := { Mirror.reset with mixEffect := [c9me] }

/-- Witness for C9: applying `KeOn(me=0, keyer=1, on_air=1)` with packet
id 7 on the concrete mirror leaves the dsk list untouched. -/
theorem c9_keOn_only_touches_one_bit_witness :
    (c9m.applyKeOn { SequenceCheck.init with lastId := 7 } 0 1 1).dsk = c9m.dsk :=
  (c9_keOn_only_touches_one_bit c9m { SequenceCheck.init with lastId := 7 }
    0 1 1 c9me rfl (by decide) (by decide) (by decide) (by decide)).2.2.2.2.2.1

/-! ### C3 — RESEND requests are looked up by the wrong id -/

/-- A cached ACK_REQUEST packet with local id 10, as stored by
`SendCommands` for session 0x1234. -/
def c3buf : List OutPacket :=
  [{ flags := 1, sessionId := 0x1234, length := 20, ackId := 0, resendId := 0,
     unknown := 0, id := 10, body0 := 0 }]

/-- C3: the unacked-send buffer holds the packet with local id 10 and the
peer requests `resend_id = 10` (its own inbound packet id being 0, as in
the gap requests this engine itself emits), yet the handler synthesizes
a bare filler instead of retransmitting the cached packet: the lookup
compares buffer ids against `packet.GetId()` instead of
`packet.GetResendId()`, contradicting the log message and the fallback
path of the very same handler. -/
theorem c3_resend_lookup_bug :
    (∃ p, p ∈ c3buf ∧ p.id = 10) ∧
    handleResendRequest c3buf 0x1234 0 10 =
      ResendAction.synthFill
        { flags := 1, sessionId := 0x1234, length := 12, ackId := 0,
          resendId := 0, unknown := 0, id := 10, body0 := 0 } := by
  constructor
  · exact ⟨_, List.mem_singleton.mpr rfl, rfl⟩
  · decide

/-! ### C6 — gap requests carry the inbound id, not `missing − 1` -/

/-- Tracker state after receiving packet id 1 (the handshake-complete
position). -/
def c6seq : SequenceCheck := (SequenceCheck.init.add 1).1

/-- C6 counterexample: after inbound ids 1 and 3 the tracker reports
missing id 2; the gap request the engine emits carries
`ack_id = 3` (the id of the packet just received), not
`missing − 1 = 1` as the claim states. -/
theorem c6_counterexample :
    ((c6seq.add 3).1.getMissing = 2) ∧
    (handleAckRequest c6seq 0x5555 3 true).2.2 =
      some { flags := 0x18, sessionId := 0x5555, length := 12, ackId := 3,
             resendId := 2, unknown := 0x100, id := 0, body0 := 0 } ∧
    ((2 : Int) - 1 ≠ (3 : Int)) := by
  refine ⟨by decide, by decide, by decide⟩

/-- C6 (amended): whenever the tracker reports a nonnegative missing id
`m` after an inbound ACK-request packet with id `inboundId` is added,
the engine sends a packet with flags `ACK_RESPONSE | RESEND` (0x10 |
0x8), `resend_id = m`, local id 0, the undocumented header word 0x100 —
and `ack_id` equal to the **inbound packet id** just stored in
`remote_id_`, not `m − 1`. -/
theorem c6_gap_request (seq : SequenceCheck) (sessionId inboundId : Nat)
    (active : Bool) (m : Int)
    (hm : ((seq.add (inboundId : Int)).1).getMissing = m) (h0 : 0 ≤ m) :
    (handleAckRequest seq sessionId inboundId active).2.2 =
      some { flags := 0x18, sessionId := sessionId, length := 12,
             ackId := inboundId, resendId := m.toNat, unknown := 0x100,
             id := 0, body0 := 0 } := by
  unfold handleAckRequest OutPacket.make
  simp only [hm, h0, if_true, reduceIte, decide_eq_true_eq]
  have : active || true = true := Bool.or_true active
  simp [this, h0]

/-- Witness for C6: the concrete 1-then-3 scenario. -/
theorem c6_gap_request_witness :
    (handleAckRequest c6seq 0x5555 3 true).2.2 =
      some { flags := 0x18, sessionId := 0x5555, length := 12, ackId := 3,
             resendId := 2, unknown := 0x100, id := 0, body0 := 0 } :=
  c6_gap_request c6seq 0x5555 3 true 2 (by decide) (by decide)

end Atem

namespace Atem

/-! ### C4 — liveness timeout -/

/-- An Active engine with a cached sent packet and live mirror data. -/
def c4e : Engine :=
  { connState := ConnState.active, sessionId := 0x5555, localId := 3,
    remoteId := 7, ackCount := 0, seq := SequenceCheck.init,
    sendPackets := [cPk 3], mirror := c9m }

/-- C4 counterexample: after 4 consecutive probe intervals with no
inbound packet the engine is still Active, the unacked-send buffer still
holds its packet and the mirror is untouched — the reset only happens on
the 6th silent interval, once `ack_count` (incremented to 5 by the five
probes) exceeds 4. -/
theorem c4_counterexample :
    (Engine.timeoutTicks 4 c4e).1.connState = ConnState.active ∧
    (Engine.timeoutTicks 4 c4e).1.sendPackets = [cPk 3] ∧
    (Engine.timeoutTicks 4 c4e).1.mirror = c9m ∧
    c9m ≠ Mirror.reset := by
  refine ⟨by decide, by decide, by decide, by decide⟩

/-- C4 (amended): starting from an Active engine with `ack_count = 0`,
after **6** consecutive probe intervals with no inbound packet (the code
reconnects when `ack_count > 4`, i.e. on the 6th timeout, after 5
probes) the engine has run `Reconnect_`: its state is the hello-sent
`kConnected` state, the unacked-send buffer is empty, every state-mirror
field is reset to never-set, the session id is back to 0x0B06, and the
fresh HELLO packet is among the packets sent. -/
theorem c4_liveness_reset (e : Engine) (hc : e.connState = ConnState.active)
    (ha : e.ackCount = 0) :
    (Engine.timeoutTicks 6 e).1.connState = ConnState.connected ∧
    (Engine.timeoutTicks 6 e).1.sendPackets = [] ∧
    (Engine.timeoutTicks 6 e).1.mirror = Mirror.reset ∧
    (Engine.timeoutTicks 6 e).1.sessionId = 0x0B06 ∧
    helloPacket ∈ (Engine.timeoutTicks 6 e).2 := by
  simp [Engine.timeoutTicks, Engine.timeoutTick, Engine.reconnect, hc, ha]

/-- Witness for C4: the concrete Active engine ends reconnected with an
empty buffer. -/
theorem c4_liveness_reset_witness :
    (Engine.timeoutTicks 6 c4e).1.connState = ConnState.connected ∧
    (Engine.timeoutTicks 6 c4e).1.sendPackets = [] :=
  ⟨(c4_liveness_reset c4e (by decide) (by decide)).1,
   (c4_liveness_reset c4e (by decide) (by decide)).2.1⟩

/-! ### C7 — local id assignment in `SendCommands` -/

/-- An engine whose send counter sits at 0x7FFF. -/
def c7e : Engine :=
  { connState := ConnState.active, sessionId := 1, localId := 0x7FFF,
    remoteId := 0, ackCount := 0, seq := SequenceCheck.init,
    sendPackets := [], mirror := Mirror.reset }

/-- C7 counterexample: with the counter at 0x7FFF, the next packet built
by `SendCommands` carries id 0x8000 — outside [0, 0x7FFF] and not 0 —
because `++local_id_` wraps the `uint16_t` at 0xFFFF, not at 0x7FFF. -/
theorem c7_counterexample :
    (c7e.sendCommands [8]).2 =
      some { flags := 1, sessionId := 1, length := 20, ackId := 0,
             resendId := 0, unknown := 0, id := 0x8000, body0 := 0 } ∧
    ((0x8000 : Nat) ≠ 0) ∧ ¬ ((0x8000 : Nat) ≤ 0x7FFF) := by
  refine ⟨by decide, by decide, by decide⟩

/-- C7 (amended): every packet built by `SendCommands` (nonempty command
list) has flag ACK_REQUEST and id `(local_id + 1) mod 2^16`, the counter
advances to exactly that id (one increment per send, the next send gets
the next id), and the wrap point is 0xFFFF → 0 — after 0x7FFF the id is
0x8000, not 0. -/
theorem c7_local_id_assignment (e : Engine) (lens : List Nat)
    (h : (12 + lens.sum) % 65536 ≠ 12) :
    (∃ p, (e.sendCommands lens).2 = some p ∧ p.flags = 1 ∧
      p.id = (e.localId + 1) % 65536) ∧
    (e.sendCommands lens).1.localId = (e.localId + 1) % 65536 ∧
    ((e.sendCommands lens).1.sendCommands lens).1.localId =
      ((e.localId + 1) % 65536 + 1) % 65536 ∧
    (e.localId = 0x7FFF → (e.localId + 1) % 65536 = 0x8000) ∧
    (e.localId = 0xFFFF → (e.localId + 1) % 65536 = 0) := by
  refine ⟨?_, ?_, ?_, ?_, ?_⟩
  · unfold Engine.sendCommands OutPacket.make
    simp [h]
  · unfold Engine.sendCommands
    simp [h]
  · unfold Engine.sendCommands
    simp [h]
  · intro hl
    rw [hl]
  · intro hl
    rw [hl]

/-- Witness for C7: the concrete engine at 0x7FFF. -/
theorem c7_local_id_assignment_witness :
    (c7e.sendCommands [8]).1.localId = (c7e.localId + 1) % 65536 :=
  (c7_local_id_assignment c7e [8] (by decide)).2.1

end Atem

namespace Atem

/-- A mirror with one valid aux output (source 7, packet id 2). -/
def c10m : Mirror :=
  { Mirror.reset with auxOut := [{ lastChangeId := 2, state := 7 }] }

/-- Witness for C10: on the concrete mirror the aux query at channel 0
succeeds. -/
theorem c10_snapshot_queries_witness : (c10m.getAuxOutput 0).isSome :=
  ((c10_snapshot_queries c10m 0 0 0 0).1).mpr
    ⟨{ lastChangeId := 2, state := 7 }, by decide, by decide⟩

end Atem

namespace Atem

/-- A mix effect none of whose versioned cells was ever set
(every `last_change_id` is `INT16_MIN`), with an empty keyer vector. -/
def c10meUnset : MixEffect :=
  { program := AtemState.unset 0, preview := AtemState.unset 0,
    uskOnAir := AtemState.unset 0,
    transition :=
      { position := AtemState.unset { inTransition := false, position := 0 },
        state := AtemState.unset { style := 0, next := 0 } },
    ftb := AtemState.unset { fullyBlack := false, inTransition := false },
    keyer := [] }

/-- A mirror holding exactly that never-set mix effect. -/
def c10mUnset : Mirror := { Mirror.reset with mixEffect := [c10meUnset] }

/-- C10 counterexample: two snapshot accessors break the claimed iff.
`GetUskNumber` returns true (and copies keyer count 0) on a mix effect
every one of whose fields has `last_change_id = INT16_MIN`, so success
does not require a valid field; and `GetUskOnAir` returns true at keyer
index 2 although the keyer container is empty — its bound is the
constant 15, not the topology-sized container — and the value it copies
is the masked bit of the bitmask, not a stored field value. -/
theorem c10_counterexample :
    c10mUnset.getUskNumber 0 = some 0 ∧
    c10meUnset.program.lastChangeId = int16Min ∧
    c10meUnset.preview.lastChangeId = int16Min ∧
    c10meUnset.uskOnAir.lastChangeId = int16Min ∧
    c10meUnset.ftb.lastChangeId = int16Min ∧
    c10meUnset.transition.position.lastChangeId = int16Min ∧
    c10meUnset.transition.state.lastChangeId = int16Min ∧
    c9m.getUskOnAir 0 2 = some true ∧
    c9me.keyer.length = 0 := by
  decide

end Atem
